import Mathlib

/-!
# Open Efficiency Index — verification of the scoring pipelines

Shallow embedding of the scoring core of this repository:
`scripts/data_pipeline.py` (synthetic-sample pipeline) and
`scripts/real_data_pipeline.py` (real ENERGY STAR pipeline), together with
the `energy_star_certified` filter used by `search.py`.

Modelling conventions:
* pandas float columns are modelled as `ℚ`;
* a numeric cell that is missing, or that `pd.to_numeric(errors='coerce')`
  turns into NaN, is modelled as `none : Option ℚ`;
* `Series.rank(pct=True)` (default method `'average'`) and `Series.round(d)`
  (numpy half-to-even) are embedded explicitly below;
* the regional price/carbon tables, which the source keeps as literal
  dictionaries inside the methods, are passed as explicit `Region → ℚ`
  arguments so that independence from them is expressible; the literal
  values appear as the default tables.
-/

namespace OpenEfficiency

/-- The five US regions used by both pipelines. -/
inductive Region where
  | us_average
  | california
  | texas
  | new_york
  | florida
deriving DecidableEq

/-- Number of values of `l` that are `≤ v`. -/
def countLE (l : List ℚ) (v : ℚ) : ℕ := l.countP (fun x => x ≤ v)

/-- Number of values of `l` that are `< v`. -/
def countLT (l : List ℚ) (v : ℚ) : ℕ := l.countP (fun x => x < v)

/-- pandas `Series.rank(method='average')` at value `v`: the tie group of `v`
occupies ordinal positions `countLT l v + 1 .. countLE l v`, and every member
receives the average of those positions, `(countLT + countLE + 1) / 2`. -/
def avgRank (l : List ℚ) (v : ℚ) : ℚ :=
  ((countLT l v : ℚ) + (countLE l v : ℚ) + 1) / 2

/-- pandas `Series.rank(pct=True)` at value `v`: average rank divided by the
number of values. -/
def rankPct (l : List ℚ) (v : ℚ) : ℚ := avgRank l v / (l.length : ℚ)

/-- numpy rounding to an integer: round half to even (banker's rounding).
This is what `Series.round` uses. -/
def roundHalfEven (q : ℚ) : ℤ :=
  if q - ⌊q⌋ < 1 / 2 then ⌊q⌋
  else if 1 / 2 < q - ⌊q⌋ then ⌊q⌋ + 1
  else if ⌊q⌋ % 2 = 0 then ⌊q⌋ else ⌊q⌋ + 1

/-- pandas `Series.round(d)`: round half to even at the `d`-th decimal. -/
def roundTo (d : ℕ) (q : ℚ) : ℚ := (roundHalfEven (q * 10 ^ d) : ℚ) / 10 ^ d

/-- The score column written by every percentile-mode category branch:
`(true_efficiency.rank(pct=True) * 100).round(d)` where `d` is the pipeline's
precision (1 in `data_pipeline.py`, 0 in `real_data_pipeline.py`). -/
def percentileScore (d : ℕ) (l : List ℚ) (v : ℚ) : ℚ :=
  roundTo d (rankPct l v * 100)

/-- pandas `Series.clip(lo, hi)`. -/
def clip (lo hi q : ℚ) : ℚ := min hi (max lo q)

/-- Function `score_to_rating`, defined identically in `data_pipeline.py`
(lines 284-290) and `real_data_pipeline.py` (lines 232-238). -/
def score_to_rating (score : ℚ) : String :=
  if 90 ≤ score then "A+"
  else if 80 ≤ score then "A"
  else if 70 ≤ score then "B"
  else if 60 ≤ score then "C"
  else if 50 ≤ score then "D"
  else "F"

/-! ## Basic facts about the rank and rounding primitives -/

theorem countLE_mono (l : List ℚ) {a b : ℚ} (h : a ≤ b) :
    countLE l a ≤ countLE l b := by
  apply List.countP_mono_left
  intro x _ hx
  simpa using le_trans (by simpa using hx) h

theorem countLT_mono (l : List ℚ) {a b : ℚ} (h : a ≤ b) :
    countLT l a ≤ countLT l b := by
  apply List.countP_mono_left
  intro x _ hx
  simpa using lt_of_lt_of_le (by simpa using hx) h

theorem countLE_le_length (l : List ℚ) (v : ℚ) : countLE l v ≤ l.length := by
  unfold countLE
  exact List.countP_le_length _

/-- Splitting `countLE` into the strict part and the tie group. -/
theorem countLT_add_countEQ (l : List ℚ) (v : ℚ) :
    countLT l v + l.countP (fun x => x = v) = countLE l v := by
  induction l with
  | nil => rfl
  | cons x xs ih =>
    unfold countLT countLE at *
    rw [List.countP_cons, List.countP_cons, List.countP_cons]
    simp only [decide_eq_true_eq]
    rcases lt_trichotomy x v with h | h | h
    · rw [if_pos h, if_neg (ne_of_lt h), if_pos (le_of_lt h)]
      omega
    · subst h
      rw [if_neg (lt_irrefl x), if_pos rfl, if_pos (le_refl x)]
      omega
    · rw [if_neg (not_lt_of_gt h), if_neg (ne_of_gt h), if_neg (not_le_of_gt h)]
      omega

theorem countLT_lt_countLE {l : List ℚ} {v : ℚ} (hv : v ∈ l) :
    countLT l v < countLE l v := by
  have hsplit := countLT_add_countEQ l v
  have hpos : 0 < l.countP (fun x => x = v) :=
    List.countP_pos_iff.mpr ⟨v, hv, by simp⟩
  omega

theorem one_le_countLE {l : List ℚ} {v : ℚ} (hv : v ∈ l) :
    1 ≤ countLE l v := by
  have := countLT_lt_countLE hv
  omega

/-- Lower bound: `⌊q⌋ ≤ roundHalfEven q`. -/
theorem floor_le_roundHalfEven (q : ℚ) : ⌊q⌋ ≤ roundHalfEven q := by
  unfold roundHalfEven
  split_ifs <;> omega

/-- Upper bound: `roundHalfEven q ≤ ⌊q⌋ + 1`. -/
theorem roundHalfEven_le_floor_add_one (q : ℚ) : roundHalfEven q ≤ ⌊q⌋ + 1 := by
  unfold roundHalfEven
  split_ifs <;> omega

/-- Half-to-even rounding fixes integers. -/
theorem roundHalfEven_intCast (n : ℤ) : roundHalfEven (n : ℚ) = n := by
  unfold roundHalfEven
  rw [Int.floor_intCast]
  have h0 : (n : ℚ) - n = 0 := by ring
  rw [h0]
  norm_num

/-- Half-to-even rounding is monotone. -/
theorem roundHalfEven_mono {a b : ℚ} (h : a ≤ b) :
    roundHalfEven a ≤ roundHalfEven b := by
  rcases lt_or_eq_of_le (Int.floor_le_floor h) with hf | hf
  · calc roundHalfEven a ≤ ⌊a⌋ + 1 := roundHalfEven_le_floor_add_one a
      _ ≤ ⌊b⌋ := by omega
      _ ≤ roundHalfEven b := floor_le_roundHalfEven b
  · unfold roundHalfEven
    rw [hf]
    split_ifs <;> first | omega | linarith

theorem roundTo_mono (d : ℕ) {a b : ℚ} (h : a ≤ b) :
    roundTo d a ≤ roundTo d b := by
  unfold roundTo
  have hp : (0 : ℚ) < 10 ^ d := by positivity
  rw [div_le_div_iff_of_pos_right hp]
  exact_mod_cast roundHalfEven_mono (mul_le_mul_of_nonneg_right h (le_of_lt hp))

theorem roundTo_le_intCast (d : ℕ) {q : ℚ} {m : ℤ} (h : q ≤ (m : ℚ)) :
    roundTo d q ≤ (m : ℚ) := by
  unfold roundTo
  have hp : (0 : ℚ) < 10 ^ d := by positivity
  rw [div_le_iff₀ hp]
  have hcast : ((m : ℚ) * 10 ^ d) = ((m * 10 ^ d : ℤ) : ℚ) := by push_cast; ring
  have hle : roundHalfEven (q * 10 ^ d) ≤ roundHalfEven ((m * 10 ^ d : ℤ) : ℚ) := by
    apply roundHalfEven_mono
    rw [← hcast]
    exact mul_le_mul_of_nonneg_right h (le_of_lt hp)
  rw [roundHalfEven_intCast] at hle
  calc (roundHalfEven (q * 10 ^ d) : ℚ) ≤ ((m * 10 ^ d : ℤ) : ℚ) := by
        exact_mod_cast hle
    _ = (m : ℚ) * 10 ^ d := by push_cast; ring

theorem intCast_le_roundTo (d : ℕ) {q : ℚ} {m : ℤ} (h : (m : ℚ) ≤ q) :
    (m : ℚ) ≤ roundTo d q := by
  unfold roundTo
  have hp : (0 : ℚ) < 10 ^ d := by positivity
  rw [le_div_iff₀ hp]
  have hle : roundHalfEven ((m * 10 ^ d : ℤ) : ℚ) ≤ roundHalfEven (q * 10 ^ d) := by
    apply roundHalfEven_mono
    have : ((m * 10 ^ d : ℤ) : ℚ) = (m : ℚ) * 10 ^ d := by push_cast; ring
    rw [this]
    exact mul_le_mul_of_nonneg_right h (le_of_lt hp)
  rw [roundHalfEven_intCast] at hle
  calc (m : ℚ) * 10 ^ d = ((m * 10 ^ d : ℤ) : ℚ) := by push_cast; ring
    _ ≤ (roundHalfEven (q * 10 ^ d) : ℚ) := by exact_mod_cast hle

theorem avgRank_mono (l : List ℚ) {a b : ℚ} (h : a ≤ b) :
    avgRank l a ≤ avgRank l b := by
  unfold avgRank
  have h1 : (countLT l a : ℚ) ≤ (countLT l b : ℚ) := by
    exact_mod_cast countLT_mono l h
  have h2 : (countLE l a : ℚ) ≤ (countLE l b : ℚ) := by
    exact_mod_cast countLE_mono l h
  linarith

theorem rankPct_mono (l : List ℚ) {a b : ℚ} (h : a ≤ b) :
    rankPct l a ≤ rankPct l b := by
  unfold rankPct
  rcases Nat.eq_zero_or_pos l.length with h0 | hpos
  · simp [h0]
  · have hn : (0 : ℚ) < (l.length : ℚ) := by exact_mod_cast hpos
    exact (div_le_div_iff_of_pos_right hn).mpr (avgRank_mono l h)

theorem percentileScore_mono (d : ℕ) (l : List ℚ) {a b : ℚ} (h : a ≤ b) :
    percentileScore d l a ≤ percentileScore d l b := by
  unfold percentileScore
  apply roundTo_mono
  have := rankPct_mono l h
  linarith

theorem one_le_avgRank {l : List ℚ} {v : ℚ} (hv : v ∈ l) : 1 ≤ avgRank l v := by
  unfold avgRank
  have h1 : (1 : ℚ) ≤ (countLE l v : ℚ) := by exact_mod_cast one_le_countLE hv
  have h0 : (0 : ℚ) ≤ (countLT l v : ℚ) := by positivity
  linarith

theorem avgRank_le_length {l : List ℚ} {v : ℚ} (hv : v ∈ l) :
    avgRank l v ≤ (l.length : ℚ) := by
  unfold avgRank
  have h1 : countLT l v < countLE l v := countLT_lt_countLE hv
  have h2 : countLE l v ≤ l.length := countLE_le_length l v
  have h3 : countLT l v + countLE l v + 1 ≤ 2 * l.length := by omega
  have h4 : ((countLT l v : ℚ) + countLE l v + 1) ≤ 2 * (l.length : ℚ) := by
    exact_mod_cast h3
  linarith

theorem rankPct_pos {l : List ℚ} {v : ℚ} (hv : v ∈ l) : 0 < rankPct l v := by
  unfold rankPct
  have hn : (0 : ℚ) < (l.length : ℚ) := by
    exact_mod_cast List.length_pos_of_mem hv
  exact div_pos (lt_of_lt_of_le one_pos (one_le_avgRank hv)) hn

theorem rankPct_le_one {l : List ℚ} {v : ℚ} (hv : v ∈ l) : rankPct l v ≤ 1 := by
  unfold rankPct
  have hn : (0 : ℚ) < (l.length : ℚ) := by
    exact_mod_cast List.length_pos_of_mem hv
  exact (div_le_one hn).mpr (avgRank_le_length hv)

theorem percentileScore_nonneg (d : ℕ) {l : List ℚ} {v : ℚ} (hv : v ∈ l) :
    0 ≤ percentileScore d l v := by
  have h : ((0 : ℤ) : ℚ) ≤ rankPct l v * 100 := by
    have := rankPct_pos hv
    push_cast
    nlinarith
  have := intCast_le_roundTo d h
  simpa [percentileScore] using this

theorem percentileScore_le_hundred (d : ℕ) {l : List ℚ} {v : ℚ} (hv : v ∈ l) :
    percentileScore d l v ≤ 100 := by
  have h : rankPct l v * 100 ≤ ((100 : ℤ) : ℚ) := by
    have := rankPct_le_one hv
    push_cast
    nlinarith
  have := roundTo_le_intCast d h
  simpa [percentileScore] using this

/-- For a value with no ties, the average-rank percentile is exactly
`(count of values ≤ v) / n`. -/
theorem rankPct_of_untied {l : List ℚ} {v : ℚ}
    (h : l.countP (fun x => x = v) = 1) :
    rankPct l v = (countLE l v : ℚ) / (l.length : ℚ) := by
  have hs := countLT_add_countEQ l v
  rw [h] at hs
  unfold rankPct avgRank
  have hlt : (countLT l v : ℚ) = (countLE l v : ℚ) - 1 := by
    have : countLT l v + 1 = countLE l v := hs
    push_cast [← this]
    ring
  rw [hlt]
  have : ((countLE l v : ℚ) - 1 + (countLE l v : ℚ) + 1) / 2 = (countLE l v : ℚ) := by
    ring
  rw [this]

/-! ## The synthetic pipeline: `scripts/data_pipeline.py` -/

namespace DataPipeline

/-- A synthetic refrigerator specification row, as produced by
`generate_sample_data('refrigerators', ...)`: every numeric field is
present. -/
structure FridgeSpec where
  manufacturer : String
  model_number : String
  energy_star_certified : Bool
  annual_energy_use_kwh : ℚ
  adjusted_volume_cubic_feet : ℚ

/-- Table `regional_pricing` of `calculate_efficiency_scores` (cents/kWh); the
dictionary keys are lower-cased into the region column suffixes. -/
def regional_pricing : Region → ℚ
  | .us_average => 165 / 10
  | .california => 241 / 10
  | .texas      => 128 / 10
  | .new_york   => 203 / 10
  | .florida    => 132 / 10

/-- Table `regional_emissions` of `calculate_efficiency_scores` (lbs CO2/kWh). -/
def regional_emissions : Region → ℚ
  | .us_average => 85 / 100
  | .california => 45 / 100
  | .texas      => 95 / 100
  | .new_york   => 65 / 100
  | .florida    => 88 / 100

/-- Function `fridge_score` (lines 237-243): the absolute-threshold score for
refrigerators, piecewise linear over `true_efficiency` bands. -/
def fridge_score (efficiency : ℚ) : ℚ :=
  if 90 / 1000 ≤ efficiency then 95 + (efficiency - 90 / 1000) * 500
  else if 80 / 1000 ≤ efficiency then 85 + (efficiency - 80 / 1000) * 100
  else if 70 / 1000 ≤ efficiency then 75 + (efficiency - 70 / 1000) * 100
  else if 60 / 1000 ≤ efficiency then 65 + (efficiency - 60 / 1000) * 100
  else if 50 / 1000 ≤ efficiency then 55 + (efficiency - 50 / 1000) * 100
  else max 10 (55 + (efficiency - 50 / 1000) * 100)

/-- The wide scored refrigerator row written to `refrigerators_scored`.
`efficiency_percentile` is `none` until the percentile pass (line 318)
creates the column. -/
structure ScoredFridge where
  spec : FridgeSpec
  true_efficiency : ℚ
  annual_energy_kwh : ℚ
  open_efficiency_score : ℚ
  efficiency_rating : String
  annual_cost : Region → ℚ
  lifetime_cost : Region → ℚ
  annual_co2_lbs : Region → ℚ
  lifetime_co2_lbs : Region → ℚ
  efficiency_percentile : Option ℚ

/-- Lines 209-314 of `ApplianceDataPipeline.calculate_efficiency_scores`
for `category == 'refrigerators'`, per row: `true_efficiency`
(adjusted volume per kWh), the absolute-threshold score clipped to
`[10, 100]`, its rating, and the regional cost/carbon columns
(`lifetime = annual * 12`). -/
def scoreFridgeAbs (pricing emissions : Region → ℚ) (r : FridgeSpec) :
    ScoredFridge :=
  let te := r.adjusted_volume_cubic_feet / r.annual_energy_use_kwh
  let annual := r.annual_energy_use_kwh
  let absScore := clip 10 100 (fridge_score te)
  let annualCost := fun g => annual * pricing g / 100
  let annualCO2 := fun g => annual * emissions g
  { spec := r
    true_efficiency := te
    annual_energy_kwh := annual
    open_efficiency_score := absScore
    efficiency_rating := score_to_rating absScore
    annual_cost := annualCost
    lifetime_cost := fun g => annualCost g * 12
    annual_co2_lbs := annualCO2
    lifetime_co2_lbs := fun g => annualCO2 g * 12
    efficiency_percentile := none }

/-- Lines 316-326: `efficiency_percentile = (true_efficiency.rank(pct=True)
* 100).round(1)`, then `open_efficiency_score = efficiency_percentile`
(overwriting the absolute-threshold score) and the rating is recomputed
from the new score. -/
def percentileOverwrite (tes : List ℚ) (s : ScoredFridge) : ScoredFridge :=
  let pct := roundTo 1 (rankPct tes s.true_efficiency * 100)
  { s with
    efficiency_percentile := some pct
    open_efficiency_score := pct
    efficiency_rating := score_to_rating pct }

/-- Method `ApplianceDataPipeline.calculate_efficiency_scores` for refrigerators:
the absolute-threshold pass over every row, then the percentile pass over
the whole `true_efficiency` column. -/
def calculate_efficiency_scores (pricing emissions : Region → ℚ)
    (specs : List FridgeSpec) : List ScoredFridge :=
  let stage1 := specs.map (scoreFridgeAbs pricing emissions)
  let tes := stage1.map (fun s => s.true_efficiency)
  stage1.map (percentileOverwrite tes)

end DataPipeline

/-! ## The real-data pipeline: `scripts/real_data_pipeline.py` -/

namespace RealDataPipeline

/-- Table `regional_pricing` of `calculate_regional_impact` (cents/kWh,
2024 averages). -/
def regional_pricing : Region → ℚ
  | .us_average => 1651 / 100
  | .california => 2704 / 100
  | .texas      => 1281 / 100
  | .new_york   => 2030 / 100
  | .florida    => 1320 / 100

/-- Table `gas_pricing` of `calculate_regional_impact` ($/therm). -/
def gas_pricing : Region → ℚ
  | .us_average => 128 / 100
  | .california => 185 / 100
  | .texas      => 105 / 100
  | .new_york   => 145 / 100
  | .florida    => 135 / 100

/-- Table `carbon_intensity` of `calculate_regional_impact` (lbs CO2/kWh). -/
def carbon_intensity : Region → ℚ
  | .us_average => 85 / 100
  | .california => 45 / 100
  | .texas      => 1
  | .new_york   => 65 / 100
  | .florida    => 88 / 100

/-- Constant `gas_carbon_intensity = 11.7` lbs CO2/therm (line 280). -/
def gas_carbon_intensity : ℚ := 117 / 10

/-- A raw ENERGY STAR refrigerator CSV row, restricted to the columns the
claims touch.  `none` in a string column is a missing cell; `none` in a
numeric column is a cell that is missing or that
`pd.to_numeric(errors='coerce')` turns into NaN. -/
structure RawFridgeRow where
  brand_name : Option String
  model_number : Option String
  energy_star_certified : Option ℤ
  annual_energy_use_kwh : Option ℚ
  capacity_cubic_feet : Option ℚ
  adjusted_volume_cubic_feet : Option ℚ

/-- A cleaned refrigerator row (output of `clean_energystar_data`). -/
structure FridgeRow where
  manufacturer : String
  model_number : String
  category : String
  energy_star_certified : ℤ
  annual_energy_use_kwh : Option ℚ
  capacity_cubic_feet : Option ℚ
  adjusted_volume_cubic_feet : Option ℚ

/-- Method `RealApplianceDataPipeline.clean_energystar_data` for refrigerators:
rows missing `Brand Name` or `Model Number` are dropped (line 99), the
columns are renamed, and `energy_star_certified` is unconditionally set to
`1` (line 162) whatever the raw row carried. -/
def clean_energystar_data (rows : List RawFridgeRow) : List FridgeRow :=
  (rows.filter (fun r => r.brand_name.isSome && r.model_number.isSome)).map
    (fun r =>
      { manufacturer := r.brand_name.getD ""
        model_number := r.model_number.getD ""
        category := "refrigerators"
        energy_star_certified := 1
        annual_energy_use_kwh := r.annual_energy_use_kwh
        capacity_cubic_feet := r.capacity_cubic_feet
        adjusted_volume_cubic_feet := r.adjusted_volume_cubic_feet })

/-- The `dropna(subset=['annual_energy_use_kwh', 'capacity_cubic_feet'])`
predicate (line 185): both critical numeric fields coerced to numbers. -/
def fridgeKeep (r : FridgeRow) : Bool :=
  r.annual_energy_use_kwh.isSome && r.capacity_cubic_feet.isSome

/-- Column `true_efficiency` of a kept refrigerator row (line 189): capacity in
cubic feet per kWh. -/
def fridgeTE (r : FridgeRow) : ℚ :=
  r.capacity_cubic_feet.getD 0 / r.annual_energy_use_kwh.getD 0

/-- The scored refrigerator row of the real pipeline, after
`calculate_regional_impact` (electric branch, lines 307-319). -/
structure ScoredFridge where
  manufacturer : String
  model_number : String
  energy_star_certified : ℤ
  annual_energy_use_kwh : ℚ
  capacity_cubic_feet : ℚ
  true_efficiency : ℚ
  open_efficiency_score : ℚ
  efficiency_rating : String
  annual_cost : Region → ℚ
  lifetime_cost : Region → ℚ
  annual_co2_lbs : Region → ℚ
  lifetime_co2_lbs : Region → ℚ

/-- One kept row through lines 189-241 (scoring, `round(0)`, rating) and the
electric branch of `calculate_regional_impact` (lines 307-319). -/
def scoreFridgeRow (pricing emissions : Region → ℚ) (tes : List ℚ)
    (r : FridgeRow) : ScoredFridge :=
  let energy := r.annual_energy_use_kwh.getD 0
  let cap := r.capacity_cubic_feet.getD 0
  let te := cap / energy
  let score := roundTo 0 (rankPct tes te * 100)
  let annualCost := fun g => energy * pricing g / 100
  let annualCO2 := fun g => energy * emissions g
  { manufacturer := r.manufacturer
    model_number := r.model_number
    energy_star_certified := r.energy_star_certified
    annual_energy_use_kwh := energy
    capacity_cubic_feet := cap
    true_efficiency := te
    open_efficiency_score := score
    efficiency_rating := score_to_rating score
    annual_cost := annualCost
    lifetime_cost := fun g => annualCost g * 12
    annual_co2_lbs := annualCO2
    lifetime_co2_lbs := fun g => annualCO2 g * 12 }

/-- Method `RealApplianceDataPipeline.calculate_efficiency_scores` for
refrigerators (with the category's columns present): coerce the critical
columns, drop the rows where either is NaN, rank the survivors'
`true_efficiency` column, and attach the regional impact columns. -/
def calculate_efficiency_scores (pricing emissions : Region → ℚ)
    (rows : List FridgeRow) : List ScoredFridge :=
  let kept := rows.filter fridgeKeep
  let tes := kept.map fridgeTE
  kept.map (scoreFridgeRow pricing emissions tes)

/-- A cleaned water heater row (the gas storage/tankless dataset). -/
structure WaterHeaterRow where
  manufacturer : String
  model_number : String
  energy_star_certified : ℤ
  fuel_type : String
  uniform_energy_factor : Option ℚ
  annual_therms_natural_gas : Option ℚ

/-- A water heater row after the scoring branch (lines 220-241), before
`calculate_regional_impact`. -/
structure ScoredWaterHeaterPre where
  manufacturer : String
  model_number : String
  energy_star_certified : ℤ
  fuel_type : String
  uniform_energy_factor : ℚ
  annual_therms_natural_gas : Option ℚ
  true_efficiency : ℚ
  open_efficiency_score : ℚ
  efficiency_rating : String

/-- A water heater row after `calculate_regional_impact` (gas branch with
the therms column, lines 285-296).  A row whose therms cell is NaN gets NaN
(here `none`) cost/carbon columns. -/
structure ScoredWaterHeater where
  manufacturer : String
  model_number : String
  energy_star_certified : ℤ
  fuel_type : String
  uniform_energy_factor : ℚ
  annual_therms_natural_gas : Option ℚ
  true_efficiency : ℚ
  open_efficiency_score : ℚ
  efficiency_rating : String
  annual_energy_use_kwh : Option ℚ
  annual_cost : Region → Option ℚ
  lifetime_cost : Region → Option ℚ
  annual_co2_lbs : Region → Option ℚ
  lifetime_co2_lbs : Region → Option ℚ

/-- The `dropna(subset=['uniform_energy_factor'])` predicate (line 223). -/
def waterHeaterKeep (r : WaterHeaterRow) : Bool :=
  r.uniform_energy_factor.isSome

/-- Lines 226-241 per kept water heater row: `true_efficiency` is the UEF
itself, the score is its percentile rank `.round(0)`, and the rating
follows the score. -/
def scoreWaterHeaterRow (tes : List ℚ) (r : WaterHeaterRow) :
    ScoredWaterHeaterPre :=
  let uef := r.uniform_energy_factor.getD 0
  let te := uef
  let score := roundTo 0 (rankPct tes te * 100)
  { manufacturer := r.manufacturer
    model_number := r.model_number
    energy_star_certified := r.energy_star_certified
    fuel_type := r.fuel_type
    uniform_energy_factor := uef
    annual_therms_natural_gas := r.annual_therms_natural_gas
    true_efficiency := te
    open_efficiency_score := score
    efficiency_rating := score_to_rating score }

/-- Method `calculate_regional_impact` for water heaters when the
`annual_therms_natural_gas` column is present (lines 285-296):
`annual_energy_use_kwh = therms * 29.3`, gas costs directly on therms,
CO2 at 11.7 lbs/therm, lifetimes at 12x annual.  It touches none of the
efficiency columns. -/
def calculate_regional_impact_wh (gasPricing : Region → ℚ) (gasCarbon : ℚ)
    (s : ScoredWaterHeaterPre) : ScoredWaterHeater :=
  let therms := s.annual_therms_natural_gas
  let annualCost := fun g => therms.map (fun t => t * gasPricing g)
  let annualCO2 := fun _g => therms.map (fun t => t * gasCarbon)
  { manufacturer := s.manufacturer
    model_number := s.model_number
    energy_star_certified := s.energy_star_certified
    fuel_type := s.fuel_type
    uniform_energy_factor := s.uniform_energy_factor
    annual_therms_natural_gas := therms
    true_efficiency := s.true_efficiency
    open_efficiency_score := s.open_efficiency_score
    efficiency_rating := s.efficiency_rating
    annual_energy_use_kwh := therms.map (fun t => t * (293 / 10))
    annual_cost := annualCost
    lifetime_cost := fun g => (annualCost g).map (fun c => c * 12)
    annual_co2_lbs := annualCO2
    lifetime_co2_lbs := fun g => (annualCO2 g).map (fun c => c * 12) }

/-- Method `RealApplianceDataPipeline.calculate_efficiency_scores` for the (gas)
water heater dataset: UEF scoring then the gas regional impact. -/
def calculate_water_heater_scores (gasPricing : Region → ℚ) (gasCarbon : ℚ)
    (rows : List WaterHeaterRow) : List ScoredWaterHeater :=
  let kept := rows.filter waterHeaterKeep
  let tes := kept.map (fun r => r.uniform_energy_factor.getD 0)
  (kept.map (scoreWaterHeaterRow tes)).map
    (calculate_regional_impact_wh gasPricing gasCarbon)

end RealDataPipeline

/-- Column `true_efficiency` of a synthetic refrigerator spec (line 211):
adjusted volume per kWh. -/
def DataPipeline.fridgeTE (r : DataPipeline.FridgeSpec) : ℚ :=
  r.adjusted_volume_cubic_feet / r.annual_energy_use_kwh

/-! ### Concrete rows used by the evaluation theorems -/

/-- A synthetic refrigerator spec with the given adjusted volume and annual
energy use. -/
def sampleSpec (vol energy : ℚ) : DataPipeline.FridgeSpec :=
  { manufacturer := "Ge"
    model_number := "RF100"
    energy_star_certified := false
    annual_energy_use_kwh := energy
    adjusted_volume_cubic_feet := vol }

/-- A cleaned real refrigerator row with the given capacity and energy
cells. -/
def sampleRow (cap energy : Option ℚ) : RealDataPipeline.FridgeRow :=
  { manufacturer := "Ge"
    model_number := "RF200"
    category := "refrigerators"
    energy_star_certified := 1
    annual_energy_use_kwh := energy
    capacity_cubic_feet := cap
    adjusted_volume_cubic_feet := none }

/-- Two synthetic specs with identical true efficiency (a tie group). -/
def tieSpecs : List DataPipeline.FridgeSpec := [sampleSpec 1 1, sampleSpec 1 1]

/-- Three synthetic specs with distinct true efficiencies 1, 2, 3. -/
def triSpecs : List DataPipeline.FridgeSpec :=
  [sampleSpec 1 1, sampleSpec 2 1, sampleSpec 3 1]

/-- Eleven cleaned real refrigerator rows with distinct true efficiencies
1, 2, ..., 11 (capacity k, energy 1). -/
def elevenRows : List RealDataPipeline.FridgeRow :=
  [sampleRow (some 1) (some 1), sampleRow (some 2) (some 1),
   sampleRow (some 3) (some 1), sampleRow (some 4) (some 1),
   sampleRow (some 5) (some 1), sampleRow (some 6) (some 1),
   sampleRow (some 7) (some 1), sampleRow (some 8) (some 1),
   sampleRow (some 9) (some 1), sampleRow (some 10) (some 1),
   sampleRow (some 11) (some 1)]

/-- Two cleaned real refrigerator rows with true efficiencies 18/400 and
20/400. -/
def twoRows : List RealDataPipeline.FridgeRow :=
  [sampleRow (some 18) (some 400), sampleRow (some 20) (some 400)]

/-- A real refrigerator row whose capacity (18 ft3) differs from its
adjusted volume (20 ft3), with 400 kWh/yr. -/
def mismatchRow : RealDataPipeline.FridgeRow :=
  { manufacturer := "Ge"
    model_number := "RF400"
    category := "refrigerators"
    energy_star_certified := 1
    annual_energy_use_kwh := some 400
    capacity_cubic_feet := some 18
    adjusted_volume_cubic_feet := some 20 }

/-- A raw ENERGY STAR refrigerator row whose input certification cell is
`0`. -/
def rawRowSample : RealDataPipeline.RawFridgeRow :=
  { brand_name := some "ge appliances"
    model_number := some "RF300"
    energy_star_certified := some 0
    annual_energy_use_kwh := some 400
    capacity_cubic_feet := some 18
    adjusted_volume_cubic_feet := some 20 }

/-- A scored (pre-regional) gas water heater row with 100 therms/yr. -/
def whPreSample : RealDataPipeline.ScoredWaterHeaterPre :=
  { manufacturer := "Rheem"
    model_number := "WH1"
    energy_star_certified := 1
    fuel_type := "Natural Gas"
    uniform_energy_factor := 9 / 10
    annual_therms_natural_gas := some 100
    true_efficiency := 9 / 10
    open_efficiency_score := 50
    efficiency_rating := "D" }

/-- A cleaned gas water heater row. -/
def whRowSample : RealDataPipeline.WaterHeaterRow :=
  { manufacturer := "Rheem"
    model_number := "WH2"
    energy_star_certified := 1
    fuel_type := "Natural Gas"
    uniform_energy_factor := some (9 / 10)
    annual_therms_natural_gas := some 120 }

/-! ## Shape lemmas: how each pipeline output row is built -/

theorem DataPipeline.stage1_te (p e : Region → ℚ)
    (specs : List DataPipeline.FridgeSpec) :
    (specs.map (DataPipeline.scoreFridgeAbs p e)).map
        (fun s => s.true_efficiency) =
      specs.map DataPipeline.fridgeTE := by
  rw [List.map_map]
  rfl

theorem DataPipeline.synthCalc_eq (p e : Region → ℚ)
    (specs : List DataPipeline.FridgeSpec) :
    DataPipeline.calculate_efficiency_scores p e specs =
      specs.map (fun r =>
        DataPipeline.percentileOverwrite (specs.map DataPipeline.fridgeTE)
          (DataPipeline.scoreFridgeAbs p e r)) := by
  unfold DataPipeline.calculate_efficiency_scores
  dsimp only
  rw [DataPipeline.stage1_te, List.map_map]
  rfl

theorem RealDataPipeline.realCalc_eq (p e : Region → ℚ)
    (rows : List RealDataPipeline.FridgeRow) :
    RealDataPipeline.calculate_efficiency_scores p e rows =
      (rows.filter RealDataPipeline.fridgeKeep).map
        (RealDataPipeline.scoreFridgeRow p e
          ((rows.filter RealDataPipeline.fridgeKeep).map
            RealDataPipeline.fridgeTE)) := rfl

theorem RealDataPipeline.whcalc_eq (gp : Region → ℚ) (gc : ℚ)
    (rows : List RealDataPipeline.WaterHeaterRow) :
    RealDataPipeline.calculate_water_heater_scores gp gc rows =
      ((rows.filter RealDataPipeline.waterHeaterKeep).map
        (RealDataPipeline.scoreWaterHeaterRow
          ((rows.filter RealDataPipeline.waterHeaterKeep).map
            (fun r => r.uniform_energy_factor.getD 0)))).map
        (RealDataPipeline.calculate_regional_impact_wh gp gc) := rfl

theorem DataPipeline.synthScore_eq_percentile (p e : Region → ℚ)
    (specs : List DataPipeline.FridgeSpec) (i : ℕ)
    (hi : i < (DataPipeline.calculate_efficiency_scores p e specs).length) :
    (DataPipeline.calculate_efficiency_scores p e specs)[i].open_efficiency_score =
      percentileScore 1 (specs.map DataPipeline.fridgeTE)
        ((DataPipeline.calculate_efficiency_scores p e specs)[i].true_efficiency) := by
  simp only [DataPipeline.synthCalc_eq, List.getElem_map]
  rfl

theorem DataPipeline.synthTE_mem (p e : Region → ℚ)
    (specs : List DataPipeline.FridgeSpec) (i : ℕ)
    (hi : i < (DataPipeline.calculate_efficiency_scores p e specs).length) :
    (DataPipeline.calculate_efficiency_scores p e specs)[i].true_efficiency ∈
      specs.map DataPipeline.fridgeTE := by
  simp only [DataPipeline.synthCalc_eq, List.getElem_map]
  exact List.mem_map_of_mem _ (List.getElem_mem _)

theorem RealDataPipeline.realScore_eq_percentile (p e : Region → ℚ)
    (rows : List RealDataPipeline.FridgeRow) (i : ℕ)
    (hi : i < (RealDataPipeline.calculate_efficiency_scores p e rows).length) :
    (RealDataPipeline.calculate_efficiency_scores p e rows)[i].open_efficiency_score =
      percentileScore 0
        ((rows.filter RealDataPipeline.fridgeKeep).map RealDataPipeline.fridgeTE)
        ((RealDataPipeline.calculate_efficiency_scores p e rows)[i].true_efficiency) := by
  simp only [RealDataPipeline.realCalc_eq, List.getElem_map]
  rfl

theorem RealDataPipeline.realTE_mem (p e : Region → ℚ)
    (rows : List RealDataPipeline.FridgeRow) (i : ℕ)
    (hi : i < (RealDataPipeline.calculate_efficiency_scores p e rows).length) :
    (RealDataPipeline.calculate_efficiency_scores p e rows)[i].true_efficiency ∈
      (rows.filter RealDataPipeline.fridgeKeep).map RealDataPipeline.fridgeTE := by
  simp only [RealDataPipeline.realCalc_eq, List.getElem_map]
  exact List.mem_map_of_mem _ (List.getElem_mem _)

/-! ## The claims -/

/-- C2: `open_efficiency_score` never depends on the regional price or
carbon tables: running either pipeline with any two table sets on the same
records yields the same score column (shown for the synthetic refrigerator
pipeline, the real refrigerator pipeline, and the real gas water heater
pipeline). -/
theorem claim2_score_independent_of_regional_tables
    (p₁ e₁ p₂ e₂ : Region → ℚ) (specs : List DataPipeline.FridgeSpec)
    (q₁ f₁ q₂ f₂ : Region → ℚ) (rows : List RealDataPipeline.FridgeRow)
    (g₁ g₂ : Region → ℚ) (c₁ c₂ : ℚ)
    (whs : List RealDataPipeline.WaterHeaterRow) :
    (DataPipeline.calculate_efficiency_scores p₁ e₁ specs).map
        (fun s => s.open_efficiency_score) =
      (DataPipeline.calculate_efficiency_scores p₂ e₂ specs).map
        (fun s => s.open_efficiency_score) ∧
    (RealDataPipeline.calculate_efficiency_scores q₁ f₁ rows).map
        (fun s => s.open_efficiency_score) =
      (RealDataPipeline.calculate_efficiency_scores q₂ f₂ rows).map
        (fun s => s.open_efficiency_score) ∧
    (RealDataPipeline.calculate_water_heater_scores g₁ c₁ whs).map
        (fun s => s.open_efficiency_score) =
      (RealDataPipeline.calculate_water_heater_scores g₂ c₂ whs).map
        (fun s => s.open_efficiency_score) := by
  refine ⟨?_, ?_, ?_⟩
  · rw [DataPipeline.synthCalc_eq, DataPipeline.synthCalc_eq, List.map_map, List.map_map]
    rfl
  · rw [RealDataPipeline.realCalc_eq, RealDataPipeline.realCalc_eq, List.map_map,
      List.map_map]
    rfl
  · rw [RealDataPipeline.whcalc_eq, RealDataPipeline.whcalc_eq]
    rw [List.map_map, List.map_map, List.map_map, List.map_map]
    rfl

/-- C4: every scored record's `efficiency_rating` equals `score_to_rating`
of its `open_efficiency_score`, in every stage of both pipelines (the
regional-impact stage copies both fields), and `score_to_rating` realises
the fixed cutoffs 90/80/70/60/50. -/
theorem claim4_rating_pure_function_of_score :
    (∀ (p e : Region → ℚ) (r : DataPipeline.FridgeSpec),
      (DataPipeline.scoreFridgeAbs p e r).efficiency_rating =
        score_to_rating (DataPipeline.scoreFridgeAbs p e r).open_efficiency_score) ∧
    (∀ (tes : List ℚ) (s : DataPipeline.ScoredFridge),
      (DataPipeline.percentileOverwrite tes s).efficiency_rating =
        score_to_rating (DataPipeline.percentileOverwrite tes s).open_efficiency_score) ∧
    (∀ (p e : Region → ℚ) (tes : List ℚ) (r : RealDataPipeline.FridgeRow),
      (RealDataPipeline.scoreFridgeRow p e tes r).efficiency_rating =
        score_to_rating (RealDataPipeline.scoreFridgeRow p e tes r).open_efficiency_score) ∧
    (∀ (tes : List ℚ) (r : RealDataPipeline.WaterHeaterRow),
      (RealDataPipeline.scoreWaterHeaterRow tes r).efficiency_rating =
        score_to_rating (RealDataPipeline.scoreWaterHeaterRow tes r).open_efficiency_score) ∧
    (∀ (gp : Region → ℚ) (gc : ℚ) (s : RealDataPipeline.ScoredWaterHeaterPre),
      (RealDataPipeline.calculate_regional_impact_wh gp gc s).efficiency_rating =
          s.efficiency_rating ∧
      (RealDataPipeline.calculate_regional_impact_wh gp gc s).open_efficiency_score =
          s.open_efficiency_score) ∧
    (score_to_rating 100 = "A+" ∧ score_to_rating 90 = "A+" ∧
     score_to_rating (899 / 10) = "A" ∧ score_to_rating 80 = "A" ∧
     score_to_rating (799 / 10) = "B" ∧ score_to_rating 70 = "B" ∧
     score_to_rating (699 / 10) = "C" ∧ score_to_rating 60 = "C" ∧
     score_to_rating (599 / 10) = "D" ∧ score_to_rating 50 = "D" ∧
     score_to_rating (499 / 10) = "F" ∧ score_to_rating 0 = "F") := by
  refine ⟨fun _ _ _ => rfl, fun _ _ => rfl, fun _ _ _ _ => rfl, fun _ _ => rfl,
    fun _ _ _ => ⟨rfl, rfl⟩, ?_⟩
  refine ⟨?_, ?_, ?_, ?_, ?_, ?_, ?_, ?_, ?_, ?_, ?_, ?_⟩ <;>
    norm_num [score_to_rating]

/-- C6: in every record built by either pipeline, for every region, the
lifetime cost and lifetime CO2 columns are exactly twelve times the annual
columns (for gas water heaters this holds under `Option.map`, the cells
being NaN together), and the percentile pass leaves all four regional
columns untouched. -/
theorem claim6_lifetime_twelve_times_annual :
    (∀ (p e : Region → ℚ) (r : DataPipeline.FridgeSpec) (g : Region),
      (DataPipeline.scoreFridgeAbs p e r).lifetime_cost g =
        (DataPipeline.scoreFridgeAbs p e r).annual_cost g * 12 ∧
      (DataPipeline.scoreFridgeAbs p e r).lifetime_co2_lbs g =
        (DataPipeline.scoreFridgeAbs p e r).annual_co2_lbs g * 12) ∧
    (∀ (tes : List ℚ) (s : DataPipeline.ScoredFridge) (g : Region),
      (DataPipeline.percentileOverwrite tes s).annual_cost g = s.annual_cost g ∧
      (DataPipeline.percentileOverwrite tes s).lifetime_cost g = s.lifetime_cost g ∧
      (DataPipeline.percentileOverwrite tes s).annual_co2_lbs g = s.annual_co2_lbs g ∧
      (DataPipeline.percentileOverwrite tes s).lifetime_co2_lbs g = s.lifetime_co2_lbs g) ∧
    (∀ (p e : Region → ℚ) (tes : List ℚ) (r : RealDataPipeline.FridgeRow)
        (g : Region),
      (RealDataPipeline.scoreFridgeRow p e tes r).lifetime_cost g =
        (RealDataPipeline.scoreFridgeRow p e tes r).annual_cost g * 12 ∧
      (RealDataPipeline.scoreFridgeRow p e tes r).lifetime_co2_lbs g =
        (RealDataPipeline.scoreFridgeRow p e tes r).annual_co2_lbs g * 12) ∧
    (∀ (gp : Region → ℚ) (gc : ℚ) (s : RealDataPipeline.ScoredWaterHeaterPre)
        (g : Region),
      (RealDataPipeline.calculate_regional_impact_wh gp gc s).lifetime_cost g =
        ((RealDataPipeline.calculate_regional_impact_wh gp gc s).annual_cost g).map
          (fun c => c * 12) ∧
      (RealDataPipeline.calculate_regional_impact_wh gp gc s).lifetime_co2_lbs g =
        ((RealDataPipeline.calculate_regional_impact_wh gp gc s).annual_co2_lbs g).map
          (fun c => c * 12)) :=
  ⟨fun _ _ _ _ => ⟨rfl, rfl⟩, fun _ _ _ => ⟨rfl, rfl, rfl, rfl⟩,
   fun _ _ _ _ _ => ⟨rfl, rfl⟩, fun _ _ _ _ => ⟨rfl, rfl⟩⟩

/-- C7 (amended): the synthetic pipeline computes a scored refrigerator's
`true_efficiency` as `adjusted_volume_cubic_feet / annual_energy_use_kwh`
(and the percentile pass preserves it), but the real pipeline computes it
as `capacity_cubic_feet / annual_energy_use_kwh` — total capacity, not
adjusted volume. -/
theorem claim7_true_efficiency_formulas :
    (∀ (p e : Region → ℚ) (r : DataPipeline.FridgeSpec),
      (DataPipeline.scoreFridgeAbs p e r).true_efficiency =
        r.adjusted_volume_cubic_feet / r.annual_energy_use_kwh) ∧
    (∀ (tes : List ℚ) (s : DataPipeline.ScoredFridge),
      (DataPipeline.percentileOverwrite tes s).true_efficiency =
        s.true_efficiency) ∧
    (∀ (p e : Region → ℚ) (tes : List ℚ) (r : RealDataPipeline.FridgeRow),
      (RealDataPipeline.scoreFridgeRow p e tes r).true_efficiency =
        r.capacity_cubic_feet.getD 0 / r.annual_energy_use_kwh.getD 0) :=
  ⟨fun _ _ _ => rfl, fun _ _ => rfl, fun _ _ _ _ => rfl⟩

/-- C7 counterexample: a real refrigerator row with adjusted volume 20 ft3,
capacity 18 ft3 and 400 kWh/yr is scored with
`true_efficiency = 18/400`, not `adjusted_volume / annual_energy = 20/400`:
the claim's formula fails on the real pipeline. -/
theorem claim7_counterexample :
    (RealDataPipeline.calculate_efficiency_scores RealDataPipeline.regional_pricing
        RealDataPipeline.carbon_intensity [mismatchRow]).map
      (fun s => s.true_efficiency) = [18 / 400] ∧
    mismatchRow.adjusted_volume_cubic_feet.getD 0 /
        mismatchRow.annual_energy_use_kwh.getD 0 = 20 / 400 ∧
    (18 / 400 : ℚ) ≠ 20 / 400 := by
  refine ⟨?_, ?_, by norm_num⟩
  · simp [RealDataPipeline.calculate_efficiency_scores,
      RealDataPipeline.fridgeKeep, RealDataPipeline.fridgeTE,
      RealDataPipeline.scoreFridgeRow, mismatchRow, List.filter]
  · simp [mismatchRow]

/-- C9: the real refrigerator scoring drops exactly the rows whose critical
numeric cells (`annual_energy_use_kwh`, `capacity_cubic_feet`) failed to
coerce, and scores all the others, in order: the scored table corresponds
one-to-one to the coercible input rows, so a dropped record appears nowhere
in it (in particular it gets no zero or null score) and the rest of the
batch is still scored. -/
theorem claim9_drop_uncoercible_records (p e : Region → ℚ)
    (rows : List RealDataPipeline.FridgeRow) :
    (RealDataPipeline.calculate_efficiency_scores p e rows).map
        (fun s => (s.manufacturer, s.model_number)) =
      (rows.filter RealDataPipeline.fridgeKeep).map
        (fun r => (r.manufacturer, r.model_number)) ∧
    (RealDataPipeline.calculate_efficiency_scores p e rows).length =
      (rows.filter RealDataPipeline.fridgeKeep).length := by
  constructor
  · rw [RealDataPipeline.realCalc_eq, List.map_map]
    rfl
  · rw [RealDataPipeline.realCalc_eq, List.length_map]

theorem RealDataPipeline.clean_cert {raws : List RealDataPipeline.RawFridgeRow}
    {c : RealDataPipeline.FridgeRow}
    (hc : c ∈ RealDataPipeline.clean_energystar_data raws) :
    c.energy_star_certified = 1 := by
  unfold RealDataPipeline.clean_energystar_data at hc
  obtain ⟨r, _, rfl⟩ := List.mem_map.mp hc
  rfl

theorem RealDataPipeline.scored_cert {p e : Region → ℚ}
    {rows : List RealDataPipeline.FridgeRow} {s : RealDataPipeline.ScoredFridge}
    (hs : s ∈ RealDataPipeline.calculate_efficiency_scores p e rows)
    (hrows : ∀ r ∈ rows, r.energy_star_certified = 1) :
    s.energy_star_certified = 1 := by
  rw [RealDataPipeline.realCalc_eq] at hs
  obtain ⟨r, hr, rfl⟩ := List.mem_map.mp hs
  exact hrows r (List.mem_of_mem_filter hr)

/-- C10: the cleaning step stamps `energy_star_certified = 1` on every
record it keeps, whatever the raw cell held; hence every row of a real
scored table carries 1 there, and filtering a cleaned or scored table on
`energy_star_certified = 1` — the condition `search.py` appends for
`energy_star=true` — returns the table unchanged. -/
theorem claim10_energy_star_always_one (p e : Region → ℚ)
    (raws : List RealDataPipeline.RawFridgeRow) (i j : ℕ)
    (hi : i < (RealDataPipeline.clean_energystar_data raws).length)
    (hj : j < (RealDataPipeline.calculate_efficiency_scores p e
        (RealDataPipeline.clean_energystar_data raws)).length) :
    (RealDataPipeline.clean_energystar_data raws)[i].energy_star_certified = 1 ∧
    (RealDataPipeline.calculate_efficiency_scores p e
        (RealDataPipeline.clean_energystar_data raws))[j].energy_star_certified = 1 ∧
    (RealDataPipeline.clean_energystar_data raws).filter
        (fun c => c.energy_star_certified == 1) =
      RealDataPipeline.clean_energystar_data raws ∧
    (RealDataPipeline.calculate_efficiency_scores p e
        (RealDataPipeline.clean_energystar_data raws)).filter
        (fun s => s.energy_star_certified == 1) =
      RealDataPipeline.calculate_efficiency_scores p e
        (RealDataPipeline.clean_energystar_data raws) := by
  have hclean : ∀ c ∈ RealDataPipeline.clean_energystar_data raws,
      c.energy_star_certified = 1 := fun _ hc => RealDataPipeline.clean_cert hc
  refine ⟨RealDataPipeline.clean_cert (List.getElem_mem _),
    RealDataPipeline.scored_cert (List.getElem_mem _) hclean, ?_, ?_⟩
  · apply List.filter_eq_self.mpr
    intro c hc
    simp [hclean c hc]
  · apply List.filter_eq_self.mpr
    intro s hs
    simp [RealDataPipeline.scored_cert hs hclean]

/-- Witness for C10 at a raw row whose input certification cell is `0`:
the certification filter leaves the cleaned table unchanged. -/
theorem claim10_witness :
    (RealDataPipeline.clean_energystar_data [rawRowSample]).filter
        (fun c => c.energy_star_certified == 1) =
      RealDataPipeline.clean_energystar_data [rawRowSample] :=
  (claim10_energy_star_always_one RealDataPipeline.regional_pricing
    RealDataPipeline.carbon_intensity [rawRowSample] 0 0
    (by simp [RealDataPipeline.clean_energystar_data, rawRowSample])
    (by simp [RealDataPipeline.calculate_efficiency_scores,
      RealDataPipeline.clean_energystar_data, RealDataPipeline.fridgeKeep,
      rawRowSample, List.filter])).2.2.1

/-- C8: for a gas water heater row with a therms value, the regional stage
sets `annual_energy_use_kwh = therms * 29.3`, bills every region directly
on therms at the gas tariff, emits 11.7 lbs CO2 per therm, and leaves
`true_efficiency` — which the scoring stage set to the UEF itself —
untouched. -/
theorem claim8_gas_water_heater_conversion
    (s : RealDataPipeline.ScoredWaterHeaterPre) (t : ℚ)
    (h : s.annual_therms_natural_gas = some t) (g : Region)
    (gp : Region → ℚ) (gc : ℚ) (tes : List ℚ)
    (r : RealDataPipeline.WaterHeaterRow) :
    (RealDataPipeline.calculate_regional_impact_wh RealDataPipeline.gas_pricing
        RealDataPipeline.gas_carbon_intensity s).annual_energy_use_kwh =
      some (t * (293 / 10)) ∧
    (RealDataPipeline.calculate_regional_impact_wh RealDataPipeline.gas_pricing
        RealDataPipeline.gas_carbon_intensity s).annual_cost g =
      some (t * RealDataPipeline.gas_pricing g) ∧
    (RealDataPipeline.calculate_regional_impact_wh RealDataPipeline.gas_pricing
        RealDataPipeline.gas_carbon_intensity s).annual_co2_lbs g =
      some (t * (117 / 10)) ∧
    (RealDataPipeline.calculate_regional_impact_wh gp gc s).true_efficiency =
      s.true_efficiency ∧
    (RealDataPipeline.scoreWaterHeaterRow tes r).true_efficiency =
      (RealDataPipeline.scoreWaterHeaterRow tes r).uniform_energy_factor := by
  refine ⟨?_, ?_, ?_, rfl, rfl⟩ <;>
    simp [RealDataPipeline.calculate_regional_impact_wh,
      RealDataPipeline.gas_carbon_intensity, h]

/-- Witness for C8 at a concrete gas water heater with 100 therms/yr. -/
theorem claim8_witness :
    (RealDataPipeline.calculate_regional_impact_wh RealDataPipeline.gas_pricing
        RealDataPipeline.gas_carbon_intensity whPreSample).annual_energy_use_kwh =
      some (100 * (293 / 10)) ∧
    (RealDataPipeline.calculate_regional_impact_wh RealDataPipeline.gas_pricing
        RealDataPipeline.gas_carbon_intensity whPreSample).annual_cost
        Region.california =
      some (100 * RealDataPipeline.gas_pricing Region.california) ∧
    (RealDataPipeline.calculate_regional_impact_wh RealDataPipeline.gas_pricing
        RealDataPipeline.gas_carbon_intensity whPreSample).annual_co2_lbs
        Region.california =
      some (100 * (117 / 10)) ∧
    (RealDataPipeline.calculate_regional_impact_wh RealDataPipeline.gas_pricing
        RealDataPipeline.gas_carbon_intensity whPreSample).true_efficiency =
      whPreSample.true_efficiency ∧
    (RealDataPipeline.scoreWaterHeaterRow [9 / 10] whRowSample).true_efficiency =
      (RealDataPipeline.scoreWaterHeaterRow [9 / 10] whRowSample).uniform_energy_factor :=
  claim8_gas_water_heater_conversion whPreSample 100 rfl Region.california
    RealDataPipeline.gas_pricing RealDataPipeline.gas_carbon_intensity
    [9 / 10] whRowSample

/-- C3: within one scored table, `open_efficiency_score` is a non-decreasing
function of `true_efficiency`, in both the synthetic and the real
refrigerator pipeline. -/
theorem claim3_score_monotone_in_true_efficiency
    (p e : Region → ℚ) (specs : List DataPipeline.FridgeSpec) (i j : ℕ)
    (hi : i < (DataPipeline.calculate_efficiency_scores p e specs).length)
    (hj : j < (DataPipeline.calculate_efficiency_scores p e specs).length)
    (hte : (DataPipeline.calculate_efficiency_scores p e specs)[i].true_efficiency ≤
      (DataPipeline.calculate_efficiency_scores p e specs)[j].true_efficiency)
    (q f : Region → ℚ) (rows : List RealDataPipeline.FridgeRow) (k m : ℕ)
    (hk : k < (RealDataPipeline.calculate_efficiency_scores q f rows).length)
    (hm : m < (RealDataPipeline.calculate_efficiency_scores q f rows).length)
    (hte' : (RealDataPipeline.calculate_efficiency_scores q f rows)[k].true_efficiency ≤
      (RealDataPipeline.calculate_efficiency_scores q f rows)[m].true_efficiency) :
    (DataPipeline.calculate_efficiency_scores p e specs)[i].open_efficiency_score ≤
      (DataPipeline.calculate_efficiency_scores p e specs)[j].open_efficiency_score ∧
    (RealDataPipeline.calculate_efficiency_scores q f rows)[k].open_efficiency_score ≤
      (RealDataPipeline.calculate_efficiency_scores q f rows)[m].open_efficiency_score := by
  constructor
  · rw [DataPipeline.synthScore_eq_percentile p e specs i hi,
      DataPipeline.synthScore_eq_percentile p e specs j hj]
    exact percentileScore_mono 1 _ hte
  · rw [RealDataPipeline.realScore_eq_percentile q f rows k hk,
      RealDataPipeline.realScore_eq_percentile q f rows m hm]
    exact percentileScore_mono 0 _ hte'

/-- Witness for C3 on concrete three-record and two-record tables. -/
theorem claim3_witness :
    ((DataPipeline.calculate_efficiency_scores DataPipeline.regional_pricing
        DataPipeline.regional_emissions triSpecs).get
      ⟨0, by simp [DataPipeline.synthCalc_eq, triSpecs]⟩).open_efficiency_score ≤
      ((DataPipeline.calculate_efficiency_scores DataPipeline.regional_pricing
          DataPipeline.regional_emissions triSpecs).get
        ⟨1, by simp [DataPipeline.synthCalc_eq, triSpecs]⟩).open_efficiency_score ∧
    ((RealDataPipeline.calculate_efficiency_scores RealDataPipeline.regional_pricing
        RealDataPipeline.carbon_intensity twoRows).get
      ⟨0, by simp [RealDataPipeline.realCalc_eq, twoRows, sampleRow,
        RealDataPipeline.fridgeKeep, List.filter]⟩).open_efficiency_score ≤
      ((RealDataPipeline.calculate_efficiency_scores RealDataPipeline.regional_pricing
          RealDataPipeline.carbon_intensity twoRows).get
        ⟨1, by simp [RealDataPipeline.realCalc_eq, twoRows, sampleRow,
          RealDataPipeline.fridgeKeep, List.filter]⟩).open_efficiency_score :=
  claim3_score_monotone_in_true_efficiency
    DataPipeline.regional_pricing DataPipeline.regional_emissions triSpecs 0 1
    (by simp [DataPipeline.synthCalc_eq, triSpecs])
    (by simp [DataPipeline.synthCalc_eq, triSpecs])
    (by
      simp only [DataPipeline.synthCalc_eq, List.getElem_map]
      norm_num [triSpecs, sampleSpec, DataPipeline.percentileOverwrite,
        DataPipeline.scoreFridgeAbs, DataPipeline.fridgeTE,
        List.getElem_cons_zero, List.getElem_cons_succ])
    RealDataPipeline.regional_pricing RealDataPipeline.carbon_intensity twoRows 0 1
    (by simp [RealDataPipeline.realCalc_eq, twoRows, sampleRow,
      RealDataPipeline.fridgeKeep, List.filter])
    (by simp [RealDataPipeline.realCalc_eq, twoRows, sampleRow,
      RealDataPipeline.fridgeKeep, List.filter])
    (by
      simp only [RealDataPipeline.realCalc_eq, List.getElem_map]
      norm_num [twoRows, sampleRow, RealDataPipeline.fridgeKeep,
        RealDataPipeline.scoreFridgeRow, List.filter,
        List.getElem_cons_zero, List.getElem_cons_succ])

/-- C5 (amended): the absolute-threshold refrigerator scores are clipped to
`[10, 100]`, but the percentile scores actually persisted are only
guaranteed to lie in `[0, 100]`: they are never clamped from below at 10
and fall under 10 for large enough populations. -/
theorem claim5_score_bounds (x : ℚ)
    (p e : Region → ℚ) (specs : List DataPipeline.FridgeSpec) (i : ℕ)
    (hi : i < (DataPipeline.calculate_efficiency_scores p e specs).length)
    (q f : Region → ℚ) (rows : List RealDataPipeline.FridgeRow) (j : ℕ)
    (hj : j < (RealDataPipeline.calculate_efficiency_scores q f rows).length) :
    (10 ≤ clip 10 100 (DataPipeline.fridge_score x) ∧
     clip 10 100 (DataPipeline.fridge_score x) ≤ 100) ∧
    (0 ≤ (DataPipeline.calculate_efficiency_scores p e specs)[i].open_efficiency_score ∧
     (DataPipeline.calculate_efficiency_scores p e specs)[i].open_efficiency_score ≤ 100) ∧
    (0 ≤ (RealDataPipeline.calculate_efficiency_scores q f rows)[j].open_efficiency_score ∧
     (RealDataPipeline.calculate_efficiency_scores q f rows)[j].open_efficiency_score ≤ 100) := by
  refine ⟨⟨le_min (by norm_num) (le_max_left _ _), min_le_left _ _⟩, ⟨?_, ?_⟩, ⟨?_, ?_⟩⟩
  · rw [DataPipeline.synthScore_eq_percentile p e specs i hi]
    exact percentileScore_nonneg 1 (DataPipeline.synthTE_mem p e specs i hi)
  · rw [DataPipeline.synthScore_eq_percentile p e specs i hi]
    exact percentileScore_le_hundred 1 (DataPipeline.synthTE_mem p e specs i hi)
  · rw [RealDataPipeline.realScore_eq_percentile q f rows j hj]
    exact percentileScore_nonneg 0 (RealDataPipeline.realTE_mem q f rows j hj)
  · rw [RealDataPipeline.realScore_eq_percentile q f rows j hj]
    exact percentileScore_le_hundred 0 (RealDataPipeline.realTE_mem q f rows j hj)

/-- C5 counterexample: in a real scored table of eleven distinct
efficiencies the worst record's persisted `open_efficiency_score` is 9,
which is below the claimed lower clamp of 10. -/
theorem claim5_counterexample :
    ((RealDataPipeline.calculate_efficiency_scores RealDataPipeline.regional_pricing
        RealDataPipeline.carbon_intensity elevenRows).map
      (fun s => s.open_efficiency_score)).head? = some 9 ∧ (9 : ℚ) < 10 := by
  refine ⟨?_, by norm_num⟩
  rw [RealDataPipeline.realCalc_eq]
  norm_num [elevenRows, sampleRow, RealDataPipeline.fridgeKeep,
    RealDataPipeline.fridgeTE, RealDataPipeline.scoreFridgeRow, List.filter,
    rankPct, avgRank, countLE, countLT, List.countP_cons, List.countP_nil,
    roundTo, roundHalfEven]

/-- Witness for C5 at concrete tables. -/
theorem claim5_witness :
    (10 ≤ clip 10 100 (DataPipeline.fridge_score (75 / 1000)) ∧
     clip 10 100 (DataPipeline.fridge_score (75 / 1000)) ≤ 100) ∧
    (0 ≤ ((DataPipeline.calculate_efficiency_scores DataPipeline.regional_pricing
        DataPipeline.regional_emissions triSpecs).get
        ⟨0, by simp [DataPipeline.synthCalc_eq, triSpecs]⟩).open_efficiency_score ∧
     ((DataPipeline.calculate_efficiency_scores DataPipeline.regional_pricing
        DataPipeline.regional_emissions triSpecs).get
        ⟨0, by simp [DataPipeline.synthCalc_eq, triSpecs]⟩).open_efficiency_score ≤ 100) ∧
    (0 ≤ ((RealDataPipeline.calculate_efficiency_scores RealDataPipeline.regional_pricing
        RealDataPipeline.carbon_intensity twoRows).get
        ⟨0, by simp [RealDataPipeline.realCalc_eq, twoRows, sampleRow,
          RealDataPipeline.fridgeKeep, List.filter]⟩).open_efficiency_score ∧
     ((RealDataPipeline.calculate_efficiency_scores RealDataPipeline.regional_pricing
        RealDataPipeline.carbon_intensity twoRows).get
        ⟨0, by simp [RealDataPipeline.realCalc_eq, twoRows, sampleRow,
          RealDataPipeline.fridgeKeep, List.filter]⟩).open_efficiency_score ≤ 100) :=
  claim5_score_bounds (75 / 1000)
    DataPipeline.regional_pricing DataPipeline.regional_emissions triSpecs 0
    (by simp [DataPipeline.synthCalc_eq, triSpecs])
    RealDataPipeline.regional_pricing RealDataPipeline.carbon_intensity twoRows 0
    (by simp [RealDataPipeline.realCalc_eq, twoRows, sampleRow,
      RealDataPipeline.fridgeKeep, List.filter])

/-- C1 (amended): the persisted `open_efficiency_score` equals the
average-rank percentile of `true_efficiency` within the category times 100,
rounded half-to-even to the pipeline's precision (1 decimal place in the
synthetic pipeline, 0 in the real one); this percentile value is what ends
up in the score column even though the synthetic pipeline computed an
absolute-threshold score first; and for a value with no ties the
average-rank percentile coincides with the claim's `(count ≤ v) / n`. -/
theorem claim1_score_is_average_rank_percentile
    (p e : Region → ℚ) (specs : List DataPipeline.FridgeSpec) (i : ℕ)
    (hi : i < (DataPipeline.calculate_efficiency_scores p e specs).length)
    (q f : Region → ℚ) (rows : List RealDataPipeline.FridgeRow) (j : ℕ)
    (hj : j < (RealDataPipeline.calculate_efficiency_scores q f rows).length)
    (l : List ℚ) (v : ℚ) (hv : l.countP (fun x => x = v) = 1) :
    (DataPipeline.calculate_efficiency_scores p e specs)[i].open_efficiency_score =
      percentileScore 1 (specs.map DataPipeline.fridgeTE)
        ((DataPipeline.calculate_efficiency_scores p e specs)[i].true_efficiency) ∧
    (DataPipeline.calculate_efficiency_scores p e specs)[i].efficiency_percentile =
      some ((DataPipeline.calculate_efficiency_scores p e specs)[i].open_efficiency_score) ∧
    (RealDataPipeline.calculate_efficiency_scores q f rows)[j].open_efficiency_score =
      percentileScore 0
        ((rows.filter RealDataPipeline.fridgeKeep).map RealDataPipeline.fridgeTE)
        ((RealDataPipeline.calculate_efficiency_scores q f rows)[j].true_efficiency) ∧
    rankPct l v = (countLE l v : ℚ) / (l.length : ℚ) := by
  refine ⟨DataPipeline.synthScore_eq_percentile p e specs i hi, ?_,
    RealDataPipeline.realScore_eq_percentile q f rows j hj, rankPct_of_untied hv⟩
  simp only [DataPipeline.synthCalc_eq, List.getElem_map]
  rfl

/-- C1 counterexample: with two tied efficiencies the persisted scores are
75 while the claim's `(count ≤ v)/n × 100` prescribes 100; and with three
untied efficiencies the worst persisted score is the rounded 33.3, not the
exact percentile 100/3 the claim prescribes. -/
theorem claim1_counterexample :
    (DataPipeline.calculate_efficiency_scores DataPipeline.regional_pricing
        DataPipeline.regional_emissions tieSpecs).map
      (fun s => s.open_efficiency_score) = [75, 75] ∧
    (countLE (tieSpecs.map DataPipeline.fridgeTE) 1 : ℚ) /
        ((tieSpecs.map DataPipeline.fridgeTE).length : ℚ) * 100 = 100 ∧
    (75 : ℚ) ≠ 100 ∧
    (DataPipeline.calculate_efficiency_scores DataPipeline.regional_pricing
        DataPipeline.regional_emissions triSpecs).map
      (fun s => s.open_efficiency_score) = [333 / 10, 667 / 10, 100] ∧
    (countLE (triSpecs.map DataPipeline.fridgeTE) 1 : ℚ) /
        ((triSpecs.map DataPipeline.fridgeTE).length : ℚ) * 100 = 100 / 3 ∧
    (333 / 10 : ℚ) ≠ 100 / 3 := by
  refine ⟨?_, ?_, by norm_num, ?_, ?_, by norm_num⟩
  · rw [DataPipeline.synthCalc_eq]
    norm_num [tieSpecs, sampleSpec, DataPipeline.percentileOverwrite,
      DataPipeline.scoreFridgeAbs, DataPipeline.fridgeTE, rankPct, avgRank,
      countLE, countLT, List.countP_cons, List.countP_nil, roundTo,
      roundHalfEven]
  · norm_num [tieSpecs, sampleSpec, DataPipeline.fridgeTE, countLE,
      List.countP_cons, List.countP_nil]
  · rw [DataPipeline.synthCalc_eq]
    have h1 : Int.fract ((1000 : ℚ) / 3) = 1 / 3 := by
      unfold Int.fract
      norm_num
    have h2 : Int.fract ((2000 : ℚ) / 3) = 2 / 3 := by
      unfold Int.fract
      norm_num
    norm_num [triSpecs, sampleSpec, DataPipeline.percentileOverwrite,
      DataPipeline.scoreFridgeAbs, DataPipeline.fridgeTE, rankPct, avgRank,
      countLE, countLT, List.countP_cons, List.countP_nil, roundTo,
      roundHalfEven, h1, h2]
  · norm_num [triSpecs, sampleSpec, DataPipeline.fridgeTE, countLE,
      List.countP_cons, List.countP_nil]

/-- Witness for C1 at concrete tables and an untied value. -/
theorem claim1_witness :
    ((DataPipeline.calculate_efficiency_scores DataPipeline.regional_pricing
        DataPipeline.regional_emissions triSpecs).get
      ⟨0, by simp [DataPipeline.synthCalc_eq, triSpecs]⟩).open_efficiency_score =
      percentileScore 1 (triSpecs.map DataPipeline.fridgeTE)
        (((DataPipeline.calculate_efficiency_scores DataPipeline.regional_pricing
          DataPipeline.regional_emissions triSpecs).get
          ⟨0, by simp [DataPipeline.synthCalc_eq, triSpecs]⟩).true_efficiency) ∧
    ((DataPipeline.calculate_efficiency_scores DataPipeline.regional_pricing
        DataPipeline.regional_emissions triSpecs).get
      ⟨0, by simp [DataPipeline.synthCalc_eq, triSpecs]⟩).efficiency_percentile =
      some (((DataPipeline.calculate_efficiency_scores DataPipeline.regional_pricing
        DataPipeline.regional_emissions triSpecs).get
        ⟨0, by simp [DataPipeline.synthCalc_eq, triSpecs]⟩).open_efficiency_score) ∧
    ((RealDataPipeline.calculate_efficiency_scores RealDataPipeline.regional_pricing
        RealDataPipeline.carbon_intensity twoRows).get
      ⟨0, by simp [RealDataPipeline.realCalc_eq, twoRows, sampleRow,
        RealDataPipeline.fridgeKeep, List.filter]⟩).open_efficiency_score =
      percentileScore 0
        ((twoRows.filter RealDataPipeline.fridgeKeep).map RealDataPipeline.fridgeTE)
        (((RealDataPipeline.calculate_efficiency_scores RealDataPipeline.regional_pricing
          RealDataPipeline.carbon_intensity twoRows).get
          ⟨0, by simp [RealDataPipeline.realCalc_eq, twoRows, sampleRow,
            RealDataPipeline.fridgeKeep, List.filter]⟩).true_efficiency) ∧
    rankPct [1, 2] 1 = (countLE [1, 2] 1 : ℚ) / (([1, 2] : List ℚ).length : ℚ) :=
  claim1_score_is_average_rank_percentile
    DataPipeline.regional_pricing DataPipeline.regional_emissions triSpecs 0
    (by simp [DataPipeline.synthCalc_eq, triSpecs])
    RealDataPipeline.regional_pricing RealDataPipeline.carbon_intensity twoRows 0
    (by simp [RealDataPipeline.realCalc_eq, twoRows, sampleRow,
      RealDataPipeline.fridgeKeep, List.filter])
    [1, 2] 1
    (by norm_num [List.countP_cons, List.countP_nil])

end OpenEfficiency
